import Mathlib

/-!
Verification development for the AI-calculator repository.

The core backend of the repository (FastAPI service implementing the
derive-verify-correct loop for Fourier-series derivations) is documented in
the architecture documents of the repository; the Cloudflare worker proxies are
present as JavaScript source.  Floating-point values are modelled as
rationals; external numeric primitives (SciPy integration, numpy cos/sin/pi)
are abstracted as parameters.
-/

/-- The Python builtin `abs` on numbers, modelled on the rationals. -/
def qabs (q : ℚ) : ℚ := if q < 0 then -q else q

theorem qabs_eq_abs (q : ℚ) : qabs q = |q| := by
  unfold qabs
  rcases lt_or_ge q 0 with h | h
  · rw [if_pos h, abs_of_neg h]
  · rw [if_neg (not_lt.mpr h), abs_of_nonneg h]

/-- Near-zero threshold used by the per-coefficient error rule, EPS = 1e-6. -/
def EPS : ℚ := 1 / 1000000

/-- Modelled from the spec: `_relative_error` of `backend/app/core/verification.py`
(the Python backend is not present in the repository snapshot; this follows the
pseudocode in the architecture document and spec section 4.4): if both values are
within EPS of zero use the absolute difference, if only the numerical value is
within EPS of zero use the absolute difference, otherwise the relative error. -/
def relative_error (ai_value numerical_value : ℚ) : ℚ :=
  if qabs numerical_value < EPS ∧ qabs ai_value < EPS then
    qabs (ai_value - numerical_value)
  else if qabs numerical_value < EPS then
    qabs (ai_value - numerical_value)
  else
    qabs (ai_value - numerical_value) / qabs numerical_value

theorem relative_error_cases (a num : ℚ) :
    relative_error a num =
      if qabs num < EPS then qabs (a - num) else qabs (a - num) / qabs num := by
  unfold relative_error
  split_ifs with h1 h2 h3 <;> first | rfl | tauto

/-- The condition under which `relative_error` takes one of its two absolute
branches, read off from the structure of the source: the union of the guards of
the first two arms. -/
def error_branch_is_absolute (ai_value numerical_value : ℚ) : Bool :=
  decide ((qabs numerical_value < EPS ∧ qabs ai_value < EPS) ∨ qabs numerical_value < EPS)

theorem error_branch_eq (a num : ℚ) :
    error_branch_is_absolute a num = decide (qabs num < EPS) := by
  simp only [error_branch_is_absolute, decide_eq_decide]
  tauto

/-- C1: whenever the numerical value has magnitude below EPS = 1e-6 the
per-coefficient error is the absolute difference (regardless of the candidate
magnitude), and only when the magnitude is at least EPS is it the relative
value; in the near-zero case the result is the plain absolute difference, so no
division is performed there. -/
theorem relative_error_hybrid_rule (ai num : ℚ) :
    (qabs num < EPS → relative_error ai num = qabs (ai - num)) ∧
    (EPS ≤ qabs num → relative_error ai num = qabs (ai - num) / qabs num) := by
  rw [relative_error_cases]
  constructor
  · intro h
    rw [if_pos h]
  · intro h
    rw [if_neg (not_lt.mpr h)]

/-- C1 witness: concrete evaluations of both branches. -/
theorem relative_error_hybrid_rule_witness :
    relative_error 3 0 = qabs ((3 : ℚ) - 0) ∧
      relative_error 3 2 = qabs ((3 : ℚ) - 2) / qabs (2 : ℚ) :=
  ⟨(relative_error_hybrid_rule 3 0).1 (by norm_num [qabs, EPS]),
   (relative_error_hybrid_rule 3 2).2 (by norm_num [qabs, EPS])⟩

/-- C6: which branch of the error function is selected depends solely on the
magnitude of the numerical operand; the value computed is determined by that
branch; the magnitude of the difference is symmetric under swapping the
operands; but the branch selection is not symmetric, witnessed at the pair
(2, 0) versus (0, 2), where even the computed errors differ. -/
theorem error_branch_solely_numerical :
    (∀ a b num num₂ : ℚ, qabs num = qabs num₂ →
        error_branch_is_absolute a num = error_branch_is_absolute b num₂) ∧
    (∀ a num : ℚ, relative_error a num =
        if error_branch_is_absolute a num then qabs (a - num) else qabs (a - num) / qabs num) ∧
    (∀ a num : ℚ, qabs (a - num) = qabs (num - a)) ∧
    (error_branch_is_absolute 2 0 = true ∧ error_branch_is_absolute 0 2 = false ∧
      relative_error 2 0 ≠ relative_error 0 2) := by
  refine ⟨?_, ?_, ?_, ?_, ?_, ?_⟩
  · intro a b num num₂ h
    rw [error_branch_eq, error_branch_eq, h]
  · intro a num
    rw [relative_error_cases, error_branch_eq]
    by_cases h : qabs num < EPS
    · rw [if_pos h, if_pos (by simp [h])]
    · rw [if_neg h, if_neg (by simp [h])]
  · intro a num
    rw [qabs_eq_abs, qabs_eq_abs]
    exact abs_sub_comm a num
  · rw [error_branch_eq]
    simp only [decide_eq_true_eq]
    norm_num [qabs, EPS]
  · rw [error_branch_eq]
    simp only [decide_eq_false_iff_not]
    norm_num [qabs, EPS]
  · rw [relative_error_cases, relative_error_cases]
    norm_num [qabs, EPS]

/-- C6 witness: the branch-equality component applied at a concrete pair of
numerical values of equal magnitude. -/
theorem error_branch_solely_numerical_witness :
    qabs (-2 : ℚ) = qabs (2 : ℚ) ∧
      error_branch_is_absolute 5 (-2) = error_branch_is_absolute 7 2 :=
  ⟨by norm_num [qabs], error_branch_solely_numerical.1 5 7 (-2) 2 (by norm_num [qabs])⟩

/-- A single reasoning step of the human-readable derivation output. -/
structure ThinkingStep where
  title : String
  explanation : String
  formula : String

/-- The machine-readable coefficient block of a derivation: a0 plus the an and
bn coefficient arrays. -/
structure Coefficients where
  a0 : ℚ
  an : List ℚ
  bn : List ℚ

/-- The executable-code block of a model response: imports, a function
definition, and the authoritative numeric coefficients. -/
structure ExecutableCode where
  imports : List String
  function_def : String
  coefficients : Coefficients

/-- Modelled from the spec: a well-formed derivation candidate recovered from a
model response (spec section 3, data model). -/
structure DerivationCandidate where
  thinking_steps : List ThinkingStep
  code : ExecutableCode

/-- Modelled from the spec: a typed parse failure carrying the stage at which
parsing gave up and a snippet of the raw text. -/
structure ParseFailure where
  stage : ℕ
  raw_snippet : String

/-- Modelled from the spec: the outcome of one numerical verification pass
(spec section 3, VerificationOutcome). -/
structure VerificationOutcome where
  numerical_coefficients : Coefficients
  per_coefficient_error : List ℚ
  max_error : ℚ
  mean_error : ℚ
  passed : Bool

/-- Modelled from the spec: what one pass of the orchestrator loop can produce:
a model-call failure, a parse failure, a sandbox failure, or a completed
verification (spec section 7 taxonomy). -/
inductive IterationResult where
  | model_failure
  | parse_failed (pf : ParseFailure)
  | sandbox_failed
  | verified (outcome : VerificationOutcome)

/-- An iteration counts as passing exactly when it reached verification and the
verification outcome passed. -/
def IterationResult.passed : IterationResult → Bool
  | .verified o => o.passed
  | _ => false

/-- Modelled from the spec: the derive-verify-correct loop of the orchestrator
(spec section 4.5, architecture document stage 3).  `step i` abstracts the
whole body of pass `i` (prompt, model call, parse, sandbox, verify); `fuel` is
the remaining iteration budget.  The loop stops after the first passing
iteration or when the budget runs out, recording one `IterationResult` per
pass.  Totality of this definition is the termination guarantee. -/
def run_iterations (step : ℕ → IterationResult) : ℕ → ℕ → List IterationResult
  | 0, _ => []
  | fuel + 1, idx =>
      let r := step idx
      if r.passed then [r] else r :: run_iterations step fuel (idx + 1)

theorem run_iterations_length_le (step : ℕ → IterationResult) :
    ∀ fuel idx, (run_iterations step fuel idx).length ≤ fuel := by
  intro fuel
  induction fuel with
  | zero => intro idx; simp [run_iterations]
  | succ n ih =>
      intro idx
      unfold run_iterations
      by_cases h : (step idx).passed
      · simp [h]
      · simp only [h, Bool.false_eq_true, if_false, List.length_cons]
        exact Nat.succ_le_succ (ih (idx + 1))

theorem run_iterations_length_pos (step : ℕ → IterationResult) (fuel idx : ℕ)
    (h : 1 ≤ fuel) : 1 ≤ (run_iterations step fuel idx).length := by
  cases fuel with
  | zero => omega
  | succ n =>
      unfold run_iterations
      by_cases hp : (step idx).passed <;> simp [hp]

theorem run_iterations_get (step : ℕ → IterationResult) :
    ∀ fuel idx i, i < (run_iterations step fuel idx).length →
      (run_iterations step fuel idx)[i]? = some (step (idx + i)) := by
  intro fuel
  induction fuel with
  | zero => intro idx i h; simp [run_iterations] at h
  | succ n ih =>
      intro idx i h
      unfold run_iterations at h ⊢
      by_cases hp : (step idx).passed
      · simp only [hp, if_true] at h ⊢
        simp only [List.length_cons, List.length_nil] at h
        interval_cases i
        simp
      · simp only [hp, Bool.false_eq_true, if_false] at h ⊢
        cases i with
        | zero => simp
        | succ j =>
            simp only [List.length_cons, Nat.succ_lt_succ_iff] at h
            simp only [List.getElem?_cons_succ]
            rw [ih (idx + 1) j h]
            have harith : idx + 1 + j = idx + (j + 1) := by omega
            rw [harith]

theorem run_iterations_not_passed_before_last (step : ℕ → IterationResult) :
    ∀ fuel idx i r, i + 1 < (run_iterations step fuel idx).length →
      (run_iterations step fuel idx)[i]? = some r → r.passed = false := by
  intro fuel
  induction fuel with
  | zero => intro idx i r h _; simp [run_iterations] at h
  | succ n ih =>
      intro idx i r h hr
      unfold run_iterations at h hr
      by_cases hp : (step idx).passed
      · simp only [hp, if_true, List.length_cons, List.length_nil] at h
        omega
      · simp only [hp, Bool.false_eq_true, if_false] at h hr
        cases i with
        | zero =>
            simp only [List.getElem?_cons_zero, Option.some_inj] at hr
            rw [← hr]
            simpa using hp
        | succ j =>
            simp only [List.length_cons, Nat.succ_lt_succ_iff] at h
            simp only [List.getElem?_cons_succ] at hr
            exact ih (idx + 1) j r h hr

theorem run_iterations_all_fail_length (step : ℕ → IterationResult) :
    ∀ fuel idx, (∀ j, idx ≤ j → j < idx + fuel → (step j).passed = false) →
      (run_iterations step fuel idx).length = fuel := by
  intro fuel
  induction fuel with
  | zero => intro idx _; simp [run_iterations]
  | succ n ih =>
      intro idx hall
      unfold run_iterations
      have h0 : (step idx).passed = false := hall idx le_rfl (by omega)
      simp only [h0, Bool.false_eq_true, if_false, List.length_cons]
      rw [ih (idx + 1) (fun j h1 h2 => hall j (by omega) (by omega))]

/-- C2: the derive-verify-correct loop always terminates (it is a total
function of its iteration budget) and executes at most `maxIterations` passes:
the list of recorded iterations never exceeds the configured bound, for every
environment `step` and every starting index. -/
theorem loop_terminates_within_budget (step : ℕ → IterationResult)
    (maxIterations idx : ℕ) :
    (run_iterations step maxIterations idx).length ≤ maxIterations :=
  run_iterations_length_le step maxIterations idx

/-- The loop invariants of spec section 3: at least one and at most
`maxIterations` records; every record is the result of the corresponding
consecutive pass starting at pass 0; every record before the last one failed
(so the loop stopped at the first passing iteration); and if every pass within
the budget fails the loop consumes the whole budget. -/
def loop_invariant_spec (step : ℕ → IterationResult) (maxIterations : ℕ) : Prop :=
  (1 ≤ (run_iterations step maxIterations 0).length ∧
      (run_iterations step maxIterations 0).length ≤ maxIterations) ∧
  (∀ i, i < (run_iterations step maxIterations 0).length →
      (run_iterations step maxIterations 0)[i]? = some (step i)) ∧
  (∀ i r, i + 1 < (run_iterations step maxIterations 0).length →
      (run_iterations step maxIterations 0)[i]? = some r → r.passed = false) ∧
  ((∀ i, i < maxIterations → (step i).passed = false) →
      (run_iterations step maxIterations 0).length = maxIterations)

/-- C3: for every completed run the number of iteration records lies between 1
and `maxIterations`, the records are the consecutive passes from pass 0, no
pass is started after a passing one, and when no pass ever passes the loop
runs for exactly `maxIterations` attempts. -/
theorem loop_stops_at_first_pass (step : ℕ → IterationResult) (maxIterations : ℕ)
    (h : 1 ≤ maxIterations) : loop_invariant_spec step maxIterations := by
  refine ⟨⟨run_iterations_length_pos step maxIterations 0 h,
          run_iterations_length_le step maxIterations 0⟩, ?_, ?_, ?_⟩
  · intro i hi
    simpa using run_iterations_get step maxIterations 0 i hi
  · intro i r hi hr
    exact run_iterations_not_passed_before_last step maxIterations 0 i r hi hr
  · intro hall
    exact run_iterations_all_fail_length step maxIterations 0
      (fun j h1 h2 => hall j (by omega))

/-- A demonstration environment: pass 0 fails verification, every later pass
passes. -/
def step_demo : ℕ → IterationResult := fun i =>
  .verified ⟨⟨0, [], []⟩, [], 0, 0, decide (1 ≤ i)⟩

/-- C3 witness: the invariants instantiated at a concrete environment whose
second pass is the first passing one, with a budget of 3; the loop indeed
records exactly 2 iterations. -/
theorem loop_stops_at_first_pass_witness :
    (1 ≤ 3 ∧ loop_invariant_spec step_demo 3) ∧
      (run_iterations step_demo 3 0).length = 2 :=
  ⟨⟨by decide, loop_stops_at_first_pass step_demo 3 (by decide)⟩, by decide⟩

/-- Modelled from the spec: the ordered strategy cascade of the Robust Parser
(spec section 4.2, architecture document `robust_parser.py`).  Each strategy is
a pure function from raw text to an optional candidate; `stage` counts the
strategies already tried.  A strategy is invoked only when every earlier one
returned nothing, and the cascade stops at the first success; when every
strategy fails the result is a typed `ParseFailure` recording the stage count
and the raw snippet.  Totality of this definition models the contract that the
parser never raises an unhandled fault. -/
def parse_cascade (stage : ℕ) (strategies : List (String → Option DerivationCandidate))
    (raw : String) : Except ParseFailure DerivationCandidate :=
  match strategies with
  | [] => .error ⟨stage, raw⟩
  | s :: rest =>
    match s raw with
    | some c => .ok c
    | none => parse_cascade (stage + 1) rest raw

/-- Modelled from the spec: the five-strategy robust parser: direct parse,
parse after normalization, fenced-block extraction, pattern-based extraction,
and an AI-assisted reformat, in that fixed order. -/
def robust_parse (s1 s2 s3 s4 s5 : String → Option DerivationCandidate)
    (raw : String) : Except ParseFailure DerivationCandidate :=
  parse_cascade 0 [s1, s2, s3, s4, s5] raw

/-- The first-success contract of the parser cascade: the result of each strategy is
returned exactly when all earlier strategies failed, and the typed failure is
returned exactly when all five failed. -/
def cascade_spec (s1 s2 s3 s4 s5 : String → Option DerivationCandidate)
    (raw : String) : Prop :=
  (∀ c, s1 raw = some c → robust_parse s1 s2 s3 s4 s5 raw = .ok c) ∧
  (∀ c, s1 raw = none → s2 raw = some c → robust_parse s1 s2 s3 s4 s5 raw = .ok c) ∧
  (∀ c, s1 raw = none → s2 raw = none → s3 raw = some c →
      robust_parse s1 s2 s3 s4 s5 raw = .ok c) ∧
  (∀ c, s1 raw = none → s2 raw = none → s3 raw = none → s4 raw = some c →
      robust_parse s1 s2 s3 s4 s5 raw = .ok c) ∧
  (∀ c, s1 raw = none → s2 raw = none → s3 raw = none → s4 raw = none →
      s5 raw = some c → robust_parse s1 s2 s3 s4 s5 raw = .ok c) ∧
  (s1 raw = none → s2 raw = none → s3 raw = none → s4 raw = none → s5 raw = none →
      robust_parse s1 s2 s3 s4 s5 raw = .error ⟨5, raw⟩)

/-- C4: for every raw text and every choice of the five strategies, the parser
returns either a well-formed candidate or a typed parse failure (it is a total
function into the sum of the two), the strategies are attempted in their fixed
order with each tried only after all earlier ones failed, the cascade stops at
the first success returning the candidate of that strategy unchanged, and only when
all five fail does it produce the typed failure. -/
theorem robust_parse_first_success (s1 s2 s3 s4 s5 : String → Option DerivationCandidate)
    (raw : String) : cascade_spec s1 s2 s3 s4 s5 raw := by
  refine ⟨?_, ?_, ?_, ?_, ?_, ?_⟩
  · intro c h1
    simp [robust_parse, parse_cascade, h1]
  · intro c h1 h2
    simp [robust_parse, parse_cascade, h1, h2]
  · intro c h1 h2 h3
    simp [robust_parse, parse_cascade, h1, h2, h3]
  · intro c h1 h2 h3 h4
    simp [robust_parse, parse_cascade, h1, h2, h3, h4]
  · intro c h1 h2 h3 h4 h5
    simp [robust_parse, parse_cascade, h1, h2, h3, h4, h5]
  · intro h1 h2 h3 h4 h5
    simp [robust_parse, parse_cascade, h1, h2, h3, h4, h5]

/-- A strategy that always fails, for demonstrations. -/
def strat_none : String → Option DerivationCandidate := fun _ => none

/-- An empty text sample. -/
def empty_text : String := ""

/-- A well-formed demonstration candidate with one term. -/
def demo_candidate : DerivationCandidate :=
  ⟨[], ⟨[], empty_text, ⟨0, [1], [1]⟩⟩⟩

/-- A strategy that always succeeds with the demonstration candidate. -/
def strat_demo : String → Option DerivationCandidate := fun _ => some demo_candidate

/-- A fixed raw-text sample. -/
def demo_raw : String := empty_text

/-- C4 witness: the cascade contract at concrete strategies where the first
strategy fails and the second succeeds; the parser indeed returns the second
strategy, returning its candidate. -/
theorem robust_parse_first_success_witness :
    cascade_spec strat_none strat_demo strat_none strat_none strat_none demo_raw ∧
      robust_parse strat_none strat_demo strat_none strat_none strat_none demo_raw =
        .ok demo_candidate :=
  ⟨robust_parse_first_success strat_none strat_demo strat_none strat_none strat_none demo_raw,
   (robust_parse_first_success strat_none strat_demo strat_none strat_none strat_none
      demo_raw).2.1 demo_candidate rfl rfl⟩

/-- Modelled from the spec: the length invariant of the parser (spec section 3): a
candidate whose coefficient arrays do not both have length `term_count`. -/
def coefficient_lengths_ok (term_count : ℕ) (c : DerivationCandidate) : Bool :=
  c.code.coefficients.an.length == term_count &&
    c.code.coefficients.bn.length == term_count

/-- Modelled from the spec: the full parse step as seen by the orchestrator:
run the five-strategy cascade, then enforce the length invariant; a mismatched
candidate is converted into a `ParseFailure` (stage 6 marks the validation
step) and is never returned as a candidate. -/
def parse_and_validate (s1 s2 s3 s4 s5 : String → Option DerivationCandidate)
    (term_count : ℕ) (raw : String) : Except ParseFailure DerivationCandidate :=
  match robust_parse s1 s2 s3 s4 s5 raw with
  | .error pf => .error pf
  | .ok c => if coefficient_lengths_ok term_count c then .ok c else .error ⟨6, raw⟩

/-- C5: every candidate the parse step hands onward has `an` and `bn` of length
exactly `term_count`, and any cascade result with a mismatched `bn` length is
classified as a typed parse failure rather than passed along as a candidate
(so it can never reach the verifier as a verification failure). -/
theorem parse_length_invariant (s1 s2 s3 s4 s5 : String → Option DerivationCandidate)
    (term_count : ℕ) (raw : String) :
    (∀ c, parse_and_validate s1 s2 s3 s4 s5 term_count raw = .ok c →
        c.code.coefficients.an.length = term_count ∧
          c.code.coefficients.bn.length = term_count) ∧
    (∀ c, robust_parse s1 s2 s3 s4 s5 raw = .ok c →
        c.code.coefficients.bn.length ≠ term_count →
        ∃ pf, parse_and_validate s1 s2 s3 s4 s5 term_count raw = .error pf) := by
  constructor
  · intro c h
    unfold parse_and_validate at h
    cases hm : robust_parse s1 s2 s3 s4 s5 raw with
    | error pf => rw [hm] at h; simp at h
    | ok c₂ =>
        rw [hm] at h
        dsimp only at h
        by_cases hv : coefficient_lengths_ok term_count c₂
        · rw [if_pos hv] at h
          have hc : c₂ = c := by simpa using h
          rw [← hc]
          unfold coefficient_lengths_ok at hv
          simp only [Bool.and_eq_true, beq_iff_eq] at hv
          exact hv
        · rw [if_neg hv] at h
          simp at h
  · intro c h hlen
    refine ⟨⟨6, raw⟩, ?_⟩
    unfold parse_and_validate
    rw [h]
    dsimp only
    rw [if_neg ?_]
    unfold coefficient_lengths_ok
    simp only [Bool.and_eq_true, beq_iff_eq]
    exact fun hc => hlen hc.2

/-- A malformed candidate: five `an` entries but only four `bn` entries. -/
def mismatched_candidate : DerivationCandidate :=
  ⟨[], ⟨[], empty_text, ⟨0, [1, 1, 1, 1, 1], [1, 1, 1, 1]⟩⟩⟩

/-- A strategy producing the malformed candidate. -/
def strat_mismatched : String → Option DerivationCandidate :=
  fun _ => some mismatched_candidate

/-- C5 witness: the scenario of the spec — term count 5 with a four-entry
`bn` array — is classified as a parse failure. -/
theorem parse_length_invariant_witness :
    ∃ pf, parse_and_validate strat_mismatched strat_none strat_none strat_none strat_none
        5 demo_raw = .error pf :=
  (parse_length_invariant strat_mismatched strat_none strat_none strat_none strat_none
      5 demo_raw).2 mismatched_candidate rfl (by decide)

/-- Modelled from the spec: the external numeric primitives the backend relies
on — SciPy numerical integration (`integ g a b` approximates the integral of
`g` from `a` to `b`) and the numpy cosine, sine and pi — abstracted as
parameters, since they are external collaborators of the verifier. -/
structure NumericsLib where
  integ : (ℚ → ℚ) → ℚ → ℚ → ℚ
  cos : ℚ → ℚ
  sin : ℚ → ℚ
  pi : ℚ

/-- Modelled from the spec: the ground-truth coefficients of the Numeric Verifier
(spec section 4.4): a0 = (1/T)·∫_0^T f, a_k = (2/T)·∫_0^T f(t)·cos(k ω₀ t) dt
and b_k = (2/T)·∫_0^T f(t)·sin(k ω₀ t) dt with ω₀ = 2π/T, computed from the
function of the user alone. -/
def ground_truth (lib : NumericsLib) (f : ℚ → ℚ) (T : ℚ) (term_count : ℕ) :
    Coefficients :=
  { a0 := (1 / T) * lib.integ f 0 T
    an := (List.range term_count).map (fun (i : ℕ) =>
      (2 / T) * lib.integ (fun t => f t * lib.cos (((i : ℚ) + 1) * (2 * lib.pi / T) * t)) 0 T)
    bn := (List.range term_count).map (fun (i : ℕ) =>
      (2 / T) * lib.integ (fun t => f t * lib.sin (((i : ℚ) + 1) * (2 * lib.pi / T) * t)) 0 T) }

/-- Modelled from the spec: one full verification pass: compute the ground
truth by numerical integration, score the candidate coefficients with the
hybrid per-coefficient error, aggregate max and mean over all 2n+1
coefficients, and compare the maximum against the threshold. -/
def verify_candidate (lib : NumericsLib) (threshold : ℚ) (f : ℚ → ℚ) (T : ℚ)
    (term_count : ℕ) (cand : Coefficients) : VerificationOutcome :=
  let num := ground_truth lib f T term_count
  let errors := relative_error cand.a0 num.a0 ::
    (List.zipWith relative_error cand.an num.an ++
      List.zipWith relative_error cand.bn num.bn)
  let max_error := errors.foldr max 0
  let mean_error := errors.sum / (errors.length : ℚ)
  ⟨num, errors, max_error, mean_error, decide (max_error ≤ threshold)⟩

/-- The ground-truth contract of the verifier: the numerical coefficients of
the outcome are exactly the integration formulas of spec section 4.4, and they
do not depend on the candidate being scored. -/
def verifier_spec (lib : NumericsLib) (threshold : ℚ) (f : ℚ → ℚ) (T : ℚ)
    (term_count : ℕ) (cand : Coefficients) : Prop :=
  ((verify_candidate lib threshold f T term_count cand).numerical_coefficients.a0 =
      (1 / T) * lib.integ f 0 T) ∧
  (∀ k : ℕ, 1 ≤ k → k ≤ term_count →
      (verify_candidate lib threshold f T term_count cand).numerical_coefficients.an[k - 1]? =
        some ((2 / T) *
          lib.integ (fun t => f t * lib.cos ((k : ℚ) * (2 * lib.pi / T) * t)) 0 T)) ∧
  (∀ k : ℕ, 1 ≤ k → k ≤ term_count →
      (verify_candidate lib threshold f T term_count cand).numerical_coefficients.bn[k - 1]? =
        some ((2 / T) *
          lib.integ (fun t => f t * lib.sin ((k : ℚ) * (2 * lib.pi / T) * t)) 0 T)) ∧
  (∀ cand₂, (verify_candidate lib threshold f T term_count cand₂).numerical_coefficients =
      (verify_candidate lib threshold f T term_count cand).numerical_coefficients)

/-- C7: for every integrator, function, period T > 0 and term count n > 0, the
numerical coefficients of the verifier are a0 = (1/T)·∫_0^T f,
a_k = (2/T)·∫_0^T f(t)·cos(k·(2π/T)·t) dt and
b_k = (2/T)·∫_0^T f(t)·sin(k·(2π/T)·t) dt for k = 1..n, and they are
independent of any value supplied by the candidate of the model. -/
theorem getElem?_map_range {α : Type} (g : ℕ → α) (n i : ℕ) (h : i < n) :
    ((List.range n).map g)[i]? = some (g i) := by
  rw [List.getElem?_map, List.getElem?_range h]
  rfl

theorem verifier_ground_truth (lib : NumericsLib) (threshold : ℚ) (f : ℚ → ℚ)
    (T : ℚ) (term_count : ℕ) (cand : Coefficients) (hT : 0 < T)
    (hn : 0 < term_count) : verifier_spec lib threshold f T term_count cand := by
  refine ⟨rfl, ?_, ?_, fun cand₂ => rfl⟩
  · intro k hk1 hkn
    have hlt : k - 1 < term_count := by omega
    have hcast : ((k - 1 : ℕ) : ℚ) + 1 = (k : ℚ) := by
      rw [Nat.cast_sub hk1]
      ring
    show (ground_truth lib f T term_count).an[k - 1]? = _
    unfold ground_truth
    rw [getElem?_map_range _ _ _ hlt, hcast]
  · intro k hk1 hkn
    have hlt : k - 1 < term_count := by omega
    have hcast : ((k - 1 : ℕ) : ℚ) + 1 = (k : ℚ) := by
      rw [Nat.cast_sub hk1]
      ring
    show (ground_truth lib f T term_count).bn[k - 1]? = _
    unfold ground_truth
    rw [getElem?_map_range _ _ _ hlt, hcast]

/-- A trivial concrete numerics library for demonstrations. -/
def demo_lib : NumericsLib := ⟨fun _ _ _ => 1, fun _ => 1, fun _ => 1, 3⟩

/-- The identity function as a demonstration integrand. -/
def demo_func : ℚ → ℚ := fun t => t

/-- C7 witness: the ground-truth contract at a concrete library, function,
period 1 and term count 1. -/
theorem verifier_ground_truth_witness :
    ((0 : ℚ) < 1 ∧ 0 < 1) ∧ verifier_spec demo_lib 1 demo_func 1 1 ⟨0, [0], [0]⟩ :=
  ⟨⟨one_pos, Nat.one_pos⟩,
   verifier_ground_truth demo_lib 1 demo_func 1 1 ⟨0, [0], [0]⟩ one_pos Nat.one_pos⟩

/-- Fixed number of sample points used by the visualization generator. -/
def NUM_POINTS : ℕ := 500

/-- Modelled from the spec: numpy-style linspace: `num` evenly spaced samples
from `a` to `b`, endpoints included. -/
def linspace (a b : ℚ) (num : ℕ) : List ℚ :=
  (List.range num).map (fun (i : ℕ) => a + (b - a) * (i : ℚ) / ((num - 1 : ℕ) : ℚ))

/-- Modelled from the spec: the arrays returned to the frontend by the
Visualization Generator (spec sections 4.6 and 6). -/
structure VisualizationData where
  t_points : List ℚ
  original_values : List ℚ
  reconstructed_values : List ℚ
  pointwise_error : List ℚ
  max_pointwise_error : ℚ
  mean_pointwise_error : ℚ

/-- Modelled from the spec: the Visualization Generator (spec section 4.6,
architecture document stage 4): sample NUM_POINTS points over [0, 2T],
evaluate the original function and the Fourier reconstruction pointwise, and
report the pointwise absolute difference together with its maximum and mean. -/
def generate_visualization (f g : ℚ → ℚ) (T : ℚ) : VisualizationData :=
  let ts := linspace 0 (2 * T) NUM_POINTS
  let pe := ts.map (fun t => qabs (f t - g t))
  { t_points := ts
    original_values := ts.map f
    reconstructed_values := ts.map g
    pointwise_error := pe
    max_pointwise_error := pe.foldr max 0
    mean_pointwise_error := pe.sum / (pe.length : ℚ) }

/-- Modelled from the spec: the run record assembled at loop exit: the
iteration history, whether the final iteration passed, and the visualization,
which is generated unconditionally — pass or fail (spec sections 4.5 and 4.6,
architecture document stage 4). -/
structure RunResult where
  iterations : List IterationResult
  final_passed : Bool
  visualization : VisualizationData

/-- Modelled from the spec: finish a run: execute the loop, read the final
outcome off the last iteration, and generate the visualization exactly once,
regardless of the verification outcome. -/
def complete_run (step : ℕ → IterationResult) (maxIterations : ℕ)
    (f g : ℚ → ℚ) (T : ℚ) : RunResult :=
  let recs := run_iterations step maxIterations 0
  { iterations := recs
    final_passed := match recs.getLast? with
      | some r => r.passed
      | none => false
    visualization := generate_visualization f g T }

/-- The visualization contract: one visualization per completed run, the same
whatever the loop produced, with NUM_POINTS = 500 samples at positions
2T·i/499 spanning [0, 2T], both functions evaluated pointwise, the error the
pointwise absolute difference, and max and mean reported over the samples. -/
def visualization_spec (step : ℕ → IterationResult) (maxIterations : ℕ)
    (f g : ℚ → ℚ) (T : ℚ) : Prop :=
  ((complete_run step maxIterations f g T).visualization =
      generate_visualization f g T) ∧
  (∀ step₂ maxIterations₂,
      (complete_run step₂ maxIterations₂ f g T).visualization =
        (complete_run step maxIterations f g T).visualization) ∧
  ((complete_run step maxIterations f g T).visualization.t_points.length = 500) ∧
  (∀ i : ℕ, i < 500 →
      (complete_run step maxIterations f g T).visualization.t_points[i]? =
        some (2 * T * (i : ℚ) / 499)) ∧
  ((complete_run step maxIterations f g T).visualization.original_values =
      (complete_run step maxIterations f g T).visualization.t_points.map f) ∧
  ((complete_run step maxIterations f g T).visualization.reconstructed_values =
      (complete_run step maxIterations f g T).visualization.t_points.map g) ∧
  ((complete_run step maxIterations f g T).visualization.pointwise_error =
      (complete_run step maxIterations f g T).visualization.t_points.map
        (fun t => qabs (f t - g t))) ∧
  ((complete_run step maxIterations f g T).visualization.max_pointwise_error =
      (complete_run step maxIterations f g T).visualization.pointwise_error.foldr max 0) ∧
  ((complete_run step maxIterations f g T).visualization.mean_pointwise_error =
      (complete_run step maxIterations f g T).visualization.pointwise_error.sum / 500)

set_option maxRecDepth 8000 in
/-- C8: for every completed run — whatever the loop environment and however
the verification went — the visualization is generated exactly once and is
identical across loop outcomes, samples exactly 500 points over [0, 2T],
evaluates the original and reconstructed functions pointwise, and reports the
pointwise absolute difference together with its maximum and mean. -/
theorem visualization_always_produced (step : ℕ → IterationResult)
    (maxIterations : ℕ) (f g : ℚ → ℚ) (T : ℚ) :
    visualization_spec step maxIterations f g T := by
  refine ⟨rfl, fun step₂ maxIterations₂ => rfl, ?_, ?_, rfl, rfl, rfl, rfl, ?_⟩
  · show (linspace 0 (2 * T) NUM_POINTS).length = 500
    unfold linspace
    rw [List.length_map, List.length_range]
    rfl
  · intro i hi
    show (linspace 0 (2 * T) NUM_POINTS)[i]? = _
    unfold linspace
    rw [getElem?_map_range _ _ _ (by simpa [NUM_POINTS] using hi)]
    have : ((NUM_POINTS - 1 : ℕ) : ℚ) = 499 := by norm_num [NUM_POINTS]
    rw [this]
    ring_nf
  · have hlen : (((linspace 0 (2 * T) NUM_POINTS).map
        (fun t => qabs (f t - g t))).length : ℚ) = 500 := by
      rw [List.length_map]
      unfold linspace
      rw [List.length_map, List.length_range]
      norm_num [NUM_POINTS]
    show ((linspace 0 (2 * T) NUM_POINTS).map (fun t => qabs (f t - g t))).sum /
        (((linspace 0 (2 * T) NUM_POINTS).map (fun t => qabs (f t - g t))).length : ℚ) = _
    rw [hlen]
    rfl

set_option maxRecDepth 8000 in
/-- C8 witness: the visualization contract at a concrete environment and
functions, together with a concrete sample position: with T = 1 the 500th
sample sits at 2T = 2. -/
theorem visualization_always_produced_witness :
    visualization_spec step_demo 3 demo_func demo_func 1 ∧
      (complete_run step_demo 3 demo_func demo_func 1).visualization.t_points[499]? =
        some 2 :=
  ⟨visualization_always_produced step_demo 3 demo_func demo_func 1,
   by
    rw [(visualization_always_produced step_demo 3 demo_func demo_func 1).2.2.2.1 499
      (by norm_num)]
    norm_num⟩

/-- Modelled from the spec: an incoming run request (spec section 6):
function expression, period and term count. -/
structure RunRequest where
  function_expression : String
  period : ℚ
  term_count : ℤ

/-- Modelled from the spec: the two rejection causes for a malformed run
request. -/
inductive RequestError where
  | invalid_period
  | invalid_term_count

/-- Modelled from the spec: request validation (spec section 6): a request
with period ≤ 0 or term count ≤ 0 is rejected. -/
def validate_request (req : RunRequest) : Option RequestError :=
  if req.period ≤ 0 then some .invalid_period
  else if req.term_count ≤ 0 then some .invalid_term_count
  else none

/-- Modelled from the spec: the service response: an optional run record, an
optional request error, and the number of model calls issued (one per
executed loop iteration). -/
structure ServiceResponse where
  run : Option RunResult
  request_error : Option RequestError
  model_calls : ℕ

/-- Modelled from the spec: the service entry point: validate the request
first, and only when validation succeeds enter the derive-verify-correct
loop; a rejected request produces no iterations and no model calls. -/
def handle_request (step : ℕ → IterationResult) (maxIterations : ℕ)
    (f g : ℚ → ℚ) (req : RunRequest) : ServiceResponse :=
  match validate_request req with
  | some e => ⟨none, some e, 0⟩
  | none =>
      let result := complete_run step maxIterations f g req.period
      ⟨some result, none, result.iterations.length⟩

/-- C9: every run request with period ≤ 0 or term count ≤ 0 is rejected
before the loop is entered: no run record is produced (hence no iteration is
performed), no model call is issued, and the rejection is surfaced as a
request error, i.e. a user-visible failure. -/
theorem invalid_request_rejected (step : ℕ → IterationResult)
    (maxIterations : ℕ) (f g : ℚ → ℚ) (req : RunRequest)
    (h : req.period ≤ 0 ∨ req.term_count ≤ 0) :
    (handle_request step maxIterations f g req).run = none ∧
    (handle_request step maxIterations f g req).model_calls = 0 ∧
    (handle_request step maxIterations f g req).request_error ≠ none := by
  have hv : ∃ e, validate_request req = some e := by
    unfold validate_request
    by_cases hp : req.period ≤ 0
    · exact ⟨.invalid_period, by rw [if_pos hp]⟩
    · have ht : req.term_count ≤ 0 := h.resolve_left hp
      exact ⟨.invalid_term_count, by rw [if_neg hp, if_pos ht]⟩
  obtain ⟨e, he⟩ := hv
  unfold handle_request
  rw [he]
  exact ⟨rfl, rfl, by simp⟩

/-- A malformed demonstration request with a negative period. -/
def bad_request : RunRequest := ⟨empty_text, -1, 5⟩

/-- C9 witness: the rejection contract applied to a concrete request with
period -1. -/
theorem invalid_request_rejected_witness :
    (handle_request step_demo 3 demo_func demo_func bad_request).run = none ∧
    (handle_request step_demo 3 demo_func demo_func bad_request).model_calls = 0 ∧
    (handle_request step_demo 3 demo_func demo_func bad_request).request_error ≠ none :=
  invalid_request_rejected step_demo 3 demo_func demo_func bad_request
    (Or.inl (by norm_num [bad_request]))

/-- A minimal JSON value model for the worker proxies. -/
inductive Json where
  | null
  | bool (b : Bool)
  | num (q : ℚ)
  | str (s : String)
  | arr (elems : List Json)
  | obj (fields : List (String × Json))

/-- An incoming HTTP request as seen by a Cloudflare Pages function: the
method, and the result of `request.json()` (`none` models a body that fails
to parse). -/
structure HttpRequest where
  method : String
  body : Option Json

/-- A backend response: its status code, the result of `.json()` (`none`
models a body that fails to parse), and the raw body for streaming. -/
structure BackendResponse where
  status : ℕ
  json : Option Json
  body : String

/-- A worker response body: a JSON value or a streamed raw body. -/
inductive ResponsePayload where
  | json (j : Json)
  | stream (s : String)

/-- A response produced by a worker: status, payload, and the Content-Type
header value. -/
structure WorkerResponse where
  status : ℕ
  payload : ResponsePayload
  content_type : String

def post_method : String := "POST"

def content_type_json : String := "application/json"

def content_type_sse : String := "text/event-stream"

def method_not_allowed_msg : String := "Method not allowed"

def proxy_error_msg : String := "Proxy error"

def proxy_error_details : String := "Failed to communicate with the backend service"

def backend_unavailable_msg : String := "Backend unavailable"

def backend_unavailable_details : String :=
  "The calculation service is temporarily unavailable. Please try again later."

def error_key : String := "error"

def message_key : String := "message"

def details_key : String := "details"

def status_key : String := "status"

/-- The 405 body both workers return for a non-POST request. -/
def method_not_allowed_body : Json :=
  .obj [(error_key, .str method_not_allowed_msg)]

/-- The 500 body both workers return from their catch-all handler; the
`message` field carries the runtime error text. -/
def proxy_error_body (message : String) : Json :=
  .obj [(error_key, .str proxy_error_msg), (message_key, .str message),
        (details_key, .str proxy_error_details)]

/-- The 502 body the V2 worker returns when the backend response is not ok. -/
def backend_unavailable_body (status : ℕ) : Json :=
  .obj [(error_key, .str backend_unavailable_msg), (status_key, .num status),
        (message_key, .str backend_unavailable_details)]

def body_parse_error_msg : String := "invalid request body"

def fetch_error_msg : String := "fetch failed"

def backend_json_error_msg : String := "invalid backend response body"

/-- Shallow embedding of `onRequest` of the V1 proxy worker
(`functions/api/fourier-series.js`): reject non-POST with 405, otherwise
parse the body, forward it to the backend (`backend` abstracts `fetch`;
`none` models a thrown network error), parse the backend response and return
it with the status of the backend; any thrown step lands in the catch-all 500.
The second component counts the fetches issued to the backend. -/
def onRequestV1 (backend : Json → Option BackendResponse) (req : HttpRequest) :
    WorkerResponse × ℕ :=
  if req.method ≠ post_method then
    (⟨405, .json method_not_allowed_body, content_type_json⟩, 0)
  else
    match req.body with
    | none => (⟨500, .json (proxy_error_body body_parse_error_msg), content_type_json⟩, 0)
    | some body =>
      match backend body with
      | none => (⟨500, .json (proxy_error_body fetch_error_msg), content_type_json⟩, 1)
      | some resp =>
        match resp.json with
        | none =>
            (⟨500, .json (proxy_error_body backend_json_error_msg), content_type_json⟩, 1)
        | some data => (⟨resp.status, .json data, content_type_json⟩, 1)

/-- Shallow embedding of `onRequest` of the V2 streaming proxy worker
(`functions/api/fourier-series.js`): reject non-POST with 405, otherwise
forward the parsed body to the backend; a backend response that is not ok
(status outside 200..299) yields a 502, and an ok response is streamed back
with the status of the backend and the SSE Content-Type.  The second component
counts the fetches issued to the backend. -/
def onRequestV2 (backend : Json → Option BackendResponse) (req : HttpRequest) :
    WorkerResponse × ℕ :=
  if req.method ≠ post_method then
    (⟨405, .json method_not_allowed_body, content_type_json⟩, 0)
  else
    match req.body with
    | none => (⟨500, .json (proxy_error_body body_parse_error_msg), content_type_json⟩, 0)
    | some body =>
      match backend body with
      | none => (⟨500, .json (proxy_error_body fetch_error_msg), content_type_json⟩, 1)
      | some resp =>
        if 200 ≤ resp.status ∧ resp.status < 300 then
          (⟨resp.status, .stream resp.body, content_type_sse⟩, 1)
        else
          (⟨502, .json (backend_unavailable_body resp.status), content_type_json⟩, 1)

/-- C10: for every incoming request whose method is not POST, both the V1
proxy worker and the V2 streaming proxy worker respond with status 405 and
the JSON body with the single field `error` set to `Method not allowed`,
and neither issues any fetch to the backend. -/
theorem non_post_rejected (backend : Json → Option BackendResponse)
    (req : HttpRequest) (h : req.method ≠ post_method) :
    onRequestV1 backend req =
      (⟨405, .json method_not_allowed_body, content_type_json⟩, 0) ∧
    onRequestV2 backend req =
      (⟨405, .json method_not_allowed_body, content_type_json⟩, 0) := by
  constructor
  · unfold onRequestV1
    rw [if_pos h]
  · unfold onRequestV2
    rw [if_pos h]

def get_method : String := "GET"

/-- A demonstration GET request. -/
def get_request : HttpRequest := ⟨get_method, none⟩

/-- A backend stub that always fails. -/
def no_backend : Json → Option BackendResponse := fun _ => none

/-- C10 witness: a concrete GET request is answered 405 with no fetch by both
workers. -/
theorem non_post_rejected_witness :
    onRequestV1 no_backend get_request =
      (⟨405, .json method_not_allowed_body, content_type_json⟩, 0) ∧
    onRequestV2 no_backend get_request =
      (⟨405, .json method_not_allowed_body, content_type_json⟩, 0) :=
  non_post_rejected no_backend get_request (by decide)
